import Mathlib

/-!
Verification development for the MediChain clinical-trial matching engine
(`backend/src/agents/matcher_agent.py`): a shallow embedding of the
`MeTTaReasoner` rule evaluator, the diversity-bonus calculator, the
criteria-check report builders, and the `MatcherAgent` single-candidate and
batch evaluation pipeline, together with theorems settling the specified
properties of those components.

Python strings are modelled as `List Char` (`Str`), Python dicts as
association lists in insertion order, and numeric scores as exact rationals
(`ℚ`); parsed decimal literals are carried as an exact mantissa/exponent pair
(`Dec`).  Fallible Python operations (`int(...)`, `float(...)` under
`try/except`) are modelled with `Option`.
-/

/-- Python strings, modelled as their character lists. -/
abbrev Str := List Char

/-- ASCII lower-casing of one character (the identifiers compared by the
matcher are ASCII; non-ASCII case mapping is outside the modelled fragment). -/
def lowerChar (c : Char) : Char :=
  if 'A' ≤ c ∧ c ≤ 'Z' then Char.ofNat (c.toNat + 32) else c

/-- Python `str.lower()` on the ASCII fragment. -/
def pyLower (s : Str) : Str := s.map lowerChar

/-- Python's `in` operator on strings: substring containment
(the empty pattern is contained in every string). -/
def containsSub (s pat : Str) : Bool := s.tails.any (fun t => pat.isPrefixOf t)

/-- Python `str.strip()`: remove leading and trailing whitespace. -/
def pyStrip (s : Str) : Str :=
  ((s.dropWhile Char.isWhitespace).reverse.dropWhile Char.isWhitespace).reverse

/-- Fuel-indexed worker for `pyReplace`; the fuel starts at the string length
and bounds the scan, so the recursion is structural. -/
def replaceGo (pat rep : Str) : Nat → Str → Str
  | _, [] => []
  | 0, s => s
  | Nat.succ n, c :: rest =>
    if !pat.isEmpty && pat.isPrefixOf (c :: rest) then
      rep ++ replaceGo pat rep n (List.drop (pat.length - 1) rest)
    else c :: replaceGo pat rep n rest

/-- Python `str.replace(pat, rep)`: replace all non-overlapping occurrences,
left to right.  The source never calls it with an empty pattern; that case is
left as the identity. -/
def pyReplace (s pat rep : Str) : Str := replaceGo pat rep s.length s

/-- Fuel-indexed worker for `pySplit`. -/
def splitGo (sep : Str) : Nat → Str → Str → List Str
  | _, acc, [] => [acc.reverse]
  | 0, acc, s => [acc.reverse ++ s]
  | Nat.succ n, acc, c :: rest =>
    if !sep.isEmpty && sep.isPrefixOf (c :: rest) then
      acc.reverse :: splitGo sep n [] (List.drop (sep.length - 1) rest)
    else splitGo sep n (c :: acc) rest

/-- Python `str.split(sep)` for a non-empty separator: split at every
occurrence, keeping empty pieces. -/
def pySplit (s sep : Str) : List Str := splitGo sep s.length [] s

/-- Worker for `pyWords`: split at every whitespace character. -/
def splitWsGo : Str → Str → List Str
  | acc, [] => [acc.reverse]
  | acc, c :: rest =>
    if c.isWhitespace then acc.reverse :: splitWsGo [] rest
    else splitWsGo (c :: acc) rest

/-- Python `str.split()` with no separator: split on whitespace runs,
dropping empty pieces. -/
def pyWords (s : Str) : List Str := (splitWsGo [] s).filter (fun w => !w.isEmpty)

/-- Digit run to number. -/
def digitsToNat (l : Str) : Nat :=
  l.foldl (fun a c => a * 10 + (c.toNat - '0'.toNat)) 0

/-- Python `int(str)` on the decimal strings this code feeds it: optional
surrounding whitespace, an optional sign, then one or more digits; `none`
where Python raises `ValueError` (exotic grammar corners such as digit-group
underscores are outside the modelled fragment). -/
def pyInt? (s : Str) : Option Int :=
  let t := pyStrip s
  let sgnDigits : Int × Str :=
    match t with
    | '+' :: rest => (1, rest)
    | '-' :: rest => (-1, rest)
    | _ => (1, t)
  if !sgnDigits.2.isEmpty && sgnDigits.2.all Char.isDigit then
    some (sgnDigits.1 * (digitsToNat sgnDigits.2 : Nat))
  else none

/-- `10 ^ n` on integers, by structural recursion. -/
def ipow10 : Nat → Int
  | 0 => 1
  | n + 1 => 10 * ipow10 n

/-- An exactly represented decimal literal with value `num * 10 ^ exp`.
The source compares IEEE-754 doubles produced by `float(...)`; decimal
literals are modelled exactly, and every comparison settled here is
insensitive to that rounding. -/
structure Dec where
  num : Int
  exp : Int
deriving DecidableEq

/-- Rational value of a parsed decimal literal. -/
def Dec.toRat (d : Dec) : ℚ := (d.num : ℚ) * (10 : ℚ) ^ d.exp

/-- Decidable comparison of two decimal literals by cross-multiplication. -/
def Dec.ble (a b : Dec) : Bool :=
  if a.exp ≤ b.exp then a.num ≤ b.num * ipow10 (b.exp - a.exp).toNat
  else a.num * ipow10 (a.exp - b.exp).toNat ≤ b.num

/-- Python `float(str)` on decimal literals: optional surrounding whitespace
and sign, integer and/or fractional digits around at most one dot, and an
optional integer exponent after `e`/`E`; `none` where Python raises
`ValueError` (`inf`, `nan` and digit-group underscores are outside the
modelled fragment). -/
def pyFloat? (s : Str) : Option Dec :=
  let t := pyStrip s
  let sgnRest : Int × Str :=
    match t with
    | '+' :: rest => (1, rest)
    | '-' :: rest => (-1, rest)
    | _ => (1, t)
  let mantExp := sgnRest.2.span (fun c => !(c = 'e' || c = 'E'))
  let exp? : Option Int :=
    match mantExp.2 with
    | [] => some 0
    | _ :: er =>
      let esgnDigits : Int × Str :=
        match er with
        | '+' :: r => (1, r)
        | '-' :: r => (-1, r)
        | _ => (1, er)
      if !esgnDigits.2.isEmpty && esgnDigits.2.all Char.isDigit then
        some (esgnDigits.1 * (digitsToNat esgnDigits.2 : Nat))
      else none
  let ipFp := mantExp.1.span (fun c => c ≠ '.')
  let frac : Option Str :=
    match ipFp.2 with
    | [] => some []
    | _ :: fp => if fp.all Char.isDigit then some fp else none
  match exp?, frac with
  | some e, some fp =>
    if ipFp.1.all Char.isDigit && !(ipFp.1.isEmpty && fp.isEmpty) then
      some ⟨sgnRest.1 * (digitsToNat (ipFp.1 ++ fp) : Nat), e - fp.length⟩
    else none
  | _, _ => none

/-- Python `x or d` on an optional integer field: `None` and `0` are falsy. -/
def pyOrInt (x : Option Int) (d : Int) : Int :=
  match x with
  | none => d
  | some v => if v = 0 then d else v

/-- Python `a or b` where both operands are optional strings:
`None` and `""` are falsy. -/
def pyOrStr (a b : Option Str) : Option Str :=
  match a with
  | some s => if s.isEmpty then b else some s
  | none => b

/-- Lookup in an association-list model of a Python dict (first match; the
source dicts have unique keys). -/
def dictGet (l : List (Str × Str)) (k : Str) : Option Str :=
  (l.find? (fun kv => kv.1 == k)).map (fun kv => kv.2)

/-- Lookup in a dict built by a Python comprehension in which later duplicate
keys overwrite earlier ones (last match wins). -/
def dictGetLast (l : List (Str × Str)) (k : Str) : Option Str :=
  l.foldl (fun acc kv => if kv.1 == k then some kv.2 else acc) none

/-- The subject-profile fields read by the matcher (the `PatientProfile`
attribute accesses in `matcher_agent.py`); the `biomarkers` dict is modelled
as an association list in insertion order, optional attributes as `Option`. -/
structure PatientProfile where
  age_range : Option Str
  gender : Option Str
  conditions : List Str
  biomarkers : List (Str × Str)
  medications : List Str
  ethnicity : Option Str
  location_region : Option Str
deriving DecidableEq

/-- Modelled from the spec: the Offering/`Trial` value shape.  The
`src.models.trial` module imported by the matcher is absent from the
snapshot; the fields follow spec §3 (Offering) and the attribute accesses in
`matcher_agent.py`.  Identifiers are abstracted to `Nat`. -/
structure Trial where
  id : Nat
  nct_id : Str
  conditions : List Str
  age_min : Option Int
  age_max : Option Int
  gender_eligibility : Str
  required_biomarkers : List (Str × Str)
  excluded_conditions : List Str
  excluded_medications : List Str
deriving DecidableEq

/-- Heterogeneous `value`/`required` payload of a criteria check
(`str | list[str] | None` at the construction sites in the source). -/
inductive CheckValue where
  | nil : CheckValue
  | str : Str → CheckValue
  | strList : List Str → CheckValue
deriving DecidableEq

/-- One inclusion/exclusion criteria check, with the fields the matcher
constructs (`criterion`, `passed`, `value`, `required`, `reasoning`). -/
structure CriteriaCheck where
  criterion : Str
  passed : Bool
  value : CheckValue
  required : CheckValue
  reasoning : Str
deriving DecidableEq

/-- The match record assembled by `MatcherAgent._evaluate_trial` (the fields
relevant to the verified properties; the audit-trace text, which embeds a
wall-clock timestamp, is not modelled). -/
structure MatchCreate where
  patient_id : Nat
  trial_id : Nat
  confidence_score : ℚ
  is_eligible : Bool
  base_confidence : ℚ
  confidence_level : Str
  diversity_bonus : ℚ
  diversity_factors : List Str
  gemini_explanation : Str
  inclusion_checks : List CriteriaCheck
  exclusion_checks : List CriteriaCheck
deriving DecidableEq

namespace MeTTaReasoner

/-- The age-range parse shared verbatim by `_rule_age_in_range` and
`MatcherAgent._check_age`: `"A-B"`, `"A+"` and `"A"` forms, `none` on the
`ValueError` path. -/
def parse_age_range (ar : Str) : Option (Int × Int) :=
  if containsSub ar "-".toList then
    let parts := pySplit (pyReplace ar "+".toList []) "-".toList
    match pyInt? (parts.getD 0 []) with
    | none => none
    | some pmin =>
      if parts.length > 1 then
        match pyInt? (parts.getD 1 []) with
        | none => none
        | some pmax => some (pmin, pmax)
      else some (pmin, 120)
  else if containsSub ar "+".toList then
    match pyInt? (pyReplace ar "+".toList []) with
    | none => none
    | some pmin => some (pmin, 120)
  else
    match pyInt? ar with
    | none => none
    | some a => some (a, a)

/-- `MeTTaReasoner._rule_age_in_range`: neutral 0.5 for missing or
unparseable subject age, 0.0 for disjoint intervals, otherwise the integer
overlap fraction of the subject interval. -/
def rule_age_in_range (patient : PatientProfile) (trial : Trial) : ℚ :=
  match patient.age_range with
  | none => 1/2
  | some ar =>
    if ar.isEmpty then 1/2
    else
      match parse_age_range ar with
      | none => 1/2
      | some (pmin, pmax) =>
        let trial_min := pyOrInt trial.age_min 0
        let trial_max := pyOrInt trial.age_max 120
        if pmax < trial_min ∨ pmin > trial_max then 0
        else
          let overlap_min := max pmin trial_min
          let overlap_max := min pmax trial_max
          let patient_range := pmax - pmin + 1
          let overlap_range := overlap_max - overlap_min + 1
          if patient_range > 0 then (overlap_range : ℚ) / (patient_range : ℚ)
          else 1

/-- `MeTTaReasoner._rule_gender_match`. -/
def rule_gender_match (patient : PatientProfile) (trial : Trial) : ℚ :=
  let trial_gender := pyLower trial.gender_eligibility
  if trial_gender = "all".toList then 1
  else
    match patient.gender with
    | none => 1/2
    | some g =>
      if g.isEmpty then 1/2
      else if pyLower g = trial_gender then 1
      else 0

/-- The positive-synonym set in `MeTTaReasoner._biomarker_matches`. -/
def positive_terms : List Str :=
  ["positive".toList, "pos".toList, "+".toList, "yes".toList,
   "detected".toList, "present".toList]

/-- The negative-synonym set in `MeTTaReasoner._biomarker_matches`. -/
def negative_terms : List Str :=
  ["negative".toList, "neg".toList, "-".toList, "no".toList,
   "not detected".toList, "absent".toList]

/-- `MeTTaReasoner._biomarker_matches`; the surrounding
`try/except ValueError` is modelled by `pyFloat?` returning `none`. -/
def biomarker_matches (patient_value required_value : Str) : Bool :=
  if patient_value = required_value then true
  else if positive_terms.contains patient_value &&
          positive_terms.contains required_value then true
  else if negative_terms.contains patient_value &&
          negative_terms.contains required_value then true
  else if containsSub required_value ">=".toList ||
          containsSub required_value "<=".toList ||
          containsSub required_value ">".toList ||
          containsSub required_value "<".toList then
    match pyFloat? (pyStrip (pyReplace patient_value "%".toList [])) with
    | none => false
    | some patient_num =>
      if containsSub required_value ">=".toList then
        match pyFloat? (pyStrip (pyReplace (pyReplace required_value ">=".toList []) "%".toList [])) with
        | none => false
        | some threshold => Dec.ble threshold patient_num
      else if containsSub required_value "<=".toList then
        match pyFloat? (pyStrip (pyReplace (pyReplace required_value "<=".toList []) "%".toList [])) with
        | none => false
        | some threshold => Dec.ble patient_num threshold
      else false
  else false

/-- The abbreviation-to-full-form table in `MeTTaReasoner._condition_similar`. -/
def variations : List (Str × List Str) :=
  [("nsclc".toList, ["non-small cell lung cancer".toList, "non small cell lung cancer".toList]),
   ("sclc".toList, ["small cell lung cancer".toList]),
   ("t2d".toList, ["type 2 diabetes".toList, "diabetes type 2".toList, "diabetes mellitus type 2".toList]),
   ("t1d".toList, ["type 1 diabetes".toList, "diabetes type 1".toList, "diabetes mellitus type 1".toList]),
   ("crc".toList, ["colorectal cancer".toList, "colon cancer".toList, "rectal cancer".toList]),
   ("hcc".toList, ["hepatocellular carcinoma".toList, "liver cancer".toList]),
   ("rcc".toList, ["renal cell carcinoma".toList, "kidney cancer".toList])]

/-- The medical stop-word set in `MeTTaReasoner._condition_similar`. -/
def stop_words : List Str :=
  ["disease".toList, "disorder".toList, "syndrome".toList, "type".toList,
   "stage".toList, "cancer".toList, "chronic".toList, "acute".toList]

/-- `MeTTaReasoner._condition_similar`: exact match, substring containment
either way, the abbreviation table, or token overlap (at least one
non-stop-word in common and at least two common words). -/
def condition_similar (cond1 cond2 : Str) : Bool :=
  if cond1 = cond2 then true
  else if containsSub cond2 cond1 || containsSub cond1 cond2 then true
  else if variations.any (fun v =>
      (cond1 == v.1 || v.2.contains cond1) && (cond2 == v.1 || v.2.contains cond2)) then true
  else
    let words1 := (pyWords cond1).dedup
    let words2 := (pyWords cond2).dedup
    let common_words := words1.filter (fun w => words2.contains w)
    let meaningful_common := common_words.filter (fun w => !stop_words.contains w)
    decide (meaningful_common.length ≥ 1 ∧ common_words.length ≥ 2)

/-- `MeTTaReasoner._rule_has_biomarkers`: fraction of required biomarkers
that are present (under lower-cased keys) and matching. -/
def rule_has_biomarkers (patient : PatientProfile) (trial : Trial) : ℚ :=
  if trial.required_biomarkers.isEmpty then 1
  else
    let patient_biomarkers :=
      patient.biomarkers.map (fun kv => (pyLower kv.1, pyLower kv.2))
    let total := trial.required_biomarkers.length
    let matched := (trial.required_biomarkers.filter (fun kv =>
      match dictGetLast patient_biomarkers (pyLower kv.1) with
      | some patient_value => biomarker_matches patient_value (pyLower kv.2)
      | none => false)).length
    if total > 0 then (matched : ℚ) / (total : ℚ) else 1

/-- `MeTTaReasoner._rule_condition_match`. -/
def rule_condition_match (patient : PatientProfile) (trial : Trial) : ℚ :=
  let trial_conditions := trial.conditions.map pyLower
  let patient_conditions := patient.conditions.map pyLower
  if trial_conditions.isEmpty then 1/2
  else if patient_conditions.isEmpty then 0
  else
    let matched := (trial_conditions.filter (fun tc =>
      patient_conditions.any (fun pc => condition_similar tc pc))).length
    (matched : ℚ) / (trial_conditions.length : ℚ)

/-- `MeTTaReasoner._rule_no_contraindications`: 0.0 on any excluded
condition similar to a subject condition or any excluded medication in a
substring relation (either direction) with a subject medication, else 1.0. -/
def rule_no_contraindications (patient : PatientProfile) (trial : Trial) : ℚ :=
  let excluded_conditions := trial.excluded_conditions.map pyLower
  let patient_conditions := patient.conditions.map pyLower
  if excluded_conditions.any (fun e =>
      patient_conditions.any (fun pc => condition_similar e pc)) then 0
  else
    let excluded_meds := trial.excluded_medications.map pyLower
    let patient_meds := patient.medications.map pyLower
    if excluded_meds.any (fun e =>
        patient_meds.any (fun pm => containsSub pm e || containsSub e pm)) then 0
    else 1

/-- The ordered `(name, score)` list assembled in `MeTTaReasoner.reason`. -/
def rule_scores (patient : PatientProfile) (trial : Trial) : List (Str × ℚ) :=
  [("age_eligibility".toList, rule_age_in_range patient trial),
   ("gender_eligibility".toList, rule_gender_match patient trial),
   ("biomarker_match".toList, rule_has_biomarkers patient trial),
   ("condition_match".toList, rule_condition_match patient trial),
   ("no_contraindications".toList, rule_no_contraindications patient trial)]

/-- The critical-rule name list in `MeTTaReasoner.reason`. -/
def critical_rules : List Str :=
  ["age_eligibility".toList, "gender_eligibility".toList, "no_contraindications".toList]

/-- The weight table in `MeTTaReasoner.reason` (`weights.get(name, 0.2)`). -/
def rule_weight (name : Str) : ℚ :=
  if name = "age_eligibility".toList then 15/100
  else if name = "gender_eligibility".toList then 10/100
  else if name = "biomarker_match".toList then 30/100
  else if name = "condition_match".toList then 30/100
  else if name = "no_contraindications".toList then 15/100
  else 2/10

/-- `MeTTaReasoner.reason`: eligibility flag and confidence percent (the
reasoning-trace string, which embeds a wall-clock timestamp, is not
modelled). -/
def reason (patient : PatientProfile) (trial : Trial) : Bool × ℚ :=
  if (((rule_scores patient trial).filter (fun s => critical_rules.contains s.1)).map
      (fun s => s.2)).any (fun s => decide (s < 1/2)) then
    (false, min (((rule_scores patient trial).map (fun s => s.2)).sum /
      ((rule_scores patient trial).length : ℚ) * (3/10) * 100) 100)
  else
    (true, min (((rule_scores patient trial).map (fun s => rule_weight s.1 * s.2)).sum * 100) 100)

/-- The underrepresented-ethnicity set in
`MeTTaReasoner.calculate_diversity_bonus`. -/
def underrepresented_ethnicities : List Str :=
  ["african_american".toList, "hispanic".toList, "native_american".toList,
   "pacific_islander".toList]

/-- The rural-keyword set in `MeTTaReasoner.calculate_diversity_bonus`. -/
def rural_indicators : List Str :=
  ["rural".toList, "remote".toList, "countryside".toList]

/-- `MeTTaReasoner.calculate_diversity_bonus`: additive bonuses with their
factor strings, capped at 15. -/
def calculate_diversity_bonus (patient : PatientProfile) : ℚ × List Str :=
  let eth : ℚ × List Str :=
    match patient.ethnicity with
    | some e =>
      if !e.isEmpty && underrepresented_ethnicities.contains (pyLower e) then
        (5, ["underrepresented_ethnicity:".toList ++ e])
      else (0, [])
    | none => (0, [])
  let gen : ℚ × List Str :=
    match patient.gender with
    | some g =>
      if !g.isEmpty && pyLower g == "female".toList then (3, ["gender:female".toList])
      else (0, [])
    | none => (0, [])
  let loc : ℚ × List Str :=
    match patient.location_region with
    | some l =>
      if !l.isEmpty && rural_indicators.any (fun ind => containsSub (pyLower l) ind) then
        (3, ["location:rural".toList])
      else (0, [])
    | none => (0, [])
  let age : ℚ × List Str :=
    match patient.age_range with
    | some ar =>
      if !ar.isEmpty && containsSub ar "65".toList then (2, ["age:65+".toList])
      else (0, [])
    | none => (0, [])
  (min (eth.1 + gen.1 + loc.1 + age.1) 15, eth.2 ++ gen.2 ++ loc.2 ++ age.2)

end MeTTaReasoner

namespace MatcherAgent

open MeTTaReasoner

/-- `MatcherAgent._check_age`: missing or unparseable subject age is assumed
eligible; otherwise interval overlap with the trial bounds. -/
def check_age (patient_age_range : Option Str) (trial_min trial_max : Option Int) : Bool :=
  match patient_age_range with
  | none => true
  | some ar =>
    if ar.isEmpty then true
    else
      match parse_age_range ar with
      | none => true
      | some (pmin, pmax) =>
        let t_min := pyOrInt trial_min 0
        let t_max := pyOrInt trial_max 120
        !(pmax < t_min || pmin > t_max)

/-- `MatcherAgent._get_confidence_level` (values of `MatchConfidenceLevel`). -/
def get_confidence_level (confidence : ℚ) : Str :=
  if confidence ≥ 80 then "high".toList
  else if confidence ≥ 60 then "medium".toList
  else if confidence ≥ 40 then "low".toList
  else "marginal".toList

/-- Round half to even at integer precision, modelling Python's `.0f`
format conversion (exact on the rationals arising here, where the source
formats a binary float). -/
def roundHalfEven (q : ℚ) : Int :=
  let f := ⌊q⌋
  let r := q - (f : ℚ)
  if r < 1/2 then f
  else if r > 1/2 then f + 1
  else if f % 2 = 0 then f else f + 1

/-- The templated fallback string in `MatcherAgent._generate_explanation`. -/
def fallback_explanation (confidence : ℚ) : Str :=
  "This trial has a ".toList ++ (toString (roundHalfEven confidence)).toList ++
    "% match confidence based on your medical profile.".toList

/-- `MatcherAgent._generate_explanation`, with the collaborator call
abstracted as an `Except` outcome: success returns the stripped response,
any failure the templated fallback (recovered locally, never surfaced). -/
def generate_explanation (confidence : ℚ) (llm_result : Except Str Str) : Str :=
  match llm_result with
  | Except.ok response => pyStrip response
  | Except.error _ => fallback_explanation confidence

/-- `MatcherAgent._build_inclusion_checks`: one age check, one
target-condition check, and one check per required biomarker (looking the
biomarker up under the offering's lower-cased key, then its exact key). -/
def build_inclusion_checks (patient : PatientProfile) (trial : Trial) : List CriteriaCheck :=
  let amin := pyOrInt trial.age_min 0
  let amax := pyOrInt trial.age_max 120
  let age_check : CriteriaCheck :=
    { criterion := "Age between ".toList ++ (toString amin).toList ++
        " and ".toList ++ (toString amax).toList
      passed := check_age patient.age_range trial.age_min trial.age_max
      value := match patient.age_range with
               | some ar => CheckValue.str ar
               | none => CheckValue.nil
      required := CheckValue.str ((toString amin).toList ++ "-".toList ++ (toString amax).toList)
      reasoning := "Age range overlap check".toList }
  let condition_match :=
    if !trial.conditions.isEmpty && !patient.conditions.isEmpty then
      trial.conditions.any (fun tc => patient.conditions.any (fun pc =>
        condition_similar (pyLower tc) (pyLower pc)))
    else false
  let condition_check : CriteriaCheck :=
    { criterion := "Has target condition: ".toList ++
        (", ".toList).intercalate (trial.conditions.take 3)
      passed := condition_match
      value := CheckValue.strList (patient.conditions.take 3)
      required := CheckValue.strList (trial.conditions.take 3)
      reasoning := "Condition similarity check".toList }
  let biomarker_checks := trial.required_biomarkers.map (fun kv =>
    let patient_value :=
      pyOrStr (dictGet patient.biomarkers (pyLower kv.1)) (dictGet patient.biomarkers kv.1)
    let passed :=
      match patient_value with
      | some pv => if pv.isEmpty then false else biomarker_matches (pyLower pv) (pyLower kv.2)
      | none => false
    { criterion := "Biomarker ".toList ++ kv.1 ++ ": ".toList ++ kv.2
      passed := passed
      value := match patient_value with
               | some pv => CheckValue.str pv
               | none => CheckValue.nil
      required := CheckValue.str kv.2
      reasoning := "Biomarker ".toList ++
        (if passed then "match".toList else "mismatch or missing".toList) })
  age_check :: condition_check :: biomarker_checks

/-- `MatcherAgent._build_exclusion_checks`: up to 5 excluded-condition and
up to 5 excluded-medication checks, each passed when the subject does not
exhibit the excluded item. -/
def build_exclusion_checks (patient : PatientProfile) (trial : Trial) : List CriteriaCheck :=
  let cond_checks := (trial.excluded_conditions.take 5).map (fun excl =>
    let has_condition :=
      if !patient.conditions.isEmpty then
        patient.conditions.any (fun pc => condition_similar (pyLower excl) (pyLower pc))
      else false
    { criterion := "Does NOT have: ".toList ++ excl
      passed := !has_condition
      value := CheckValue.str (if has_condition then "Present".toList else "Not present".toList)
      required := CheckValue.str "Must not have".toList
      reasoning := "Exclusion criterion check".toList })
  let med_checks := (trial.excluded_medications.take 5).map (fun excl =>
    let takes_medication :=
      if !patient.medications.isEmpty then
        patient.medications.any (fun pm =>
          containsSub (pyLower pm) (pyLower excl) || containsSub (pyLower excl) (pyLower pm))
      else false
    { criterion := "NOT taking: ".toList ++ excl
      passed := !takes_medication
      value := CheckValue.str (if takes_medication then "Taking".toList else "Not taking".toList)
      required := CheckValue.str "Must not take".toList
      reasoning := "Medication exclusion check".toList })
  cond_checks ++ med_checks

/-- Step 3 of `MatcherAgent._evaluate_trial`:
`final_confidence = min(base_confidence + diversity_bonus, 100.0)`. -/
def final_confidence (patient : PatientProfile) (trial : Trial) : ℚ :=
  min ((reason patient trial).2 + (calculate_diversity_bonus patient).1) 100

/-- The deterministic body of `MatcherAgent._evaluate_trial` (steps 1-6 and
the record construction), with the explanation-collaborator call abstracted
as an `Except` outcome. -/
def evaluate_trial_core (patient_id : Nat) (patient : PatientProfile) (trial : Trial)
    (llm_result : Except Str Str) : MatchCreate :=
  { patient_id := patient_id
    trial_id := trial.id
    confidence_score := final_confidence patient trial
    is_eligible := (reason patient trial).1
    base_confidence := (reason patient trial).2
    confidence_level := get_confidence_level (final_confidence patient trial)
    diversity_bonus := (calculate_diversity_bonus patient).1
    diversity_factors := (calculate_diversity_bonus patient).2
    gemini_explanation := generate_explanation (final_confidence patient trial) llm_result
    inclusion_checks := build_inclusion_checks patient trial
    exclusion_checks := build_exclusion_checks patient trial }

/-- `MatcherAgent._evaluate_trial`: the whole body sits in a
`try/except Exception` that logs and returns `None`; an unexpected error
raised inside the deterministic steps is injected as `fault`.  The Python
coroutine returns normally in every case (`Except.ok`); no error propagates
to the caller of `_evaluate_trial`. -/
def evaluate_trial (fault : Option Str) (patient_id : Nat) (patient : PatientProfile)
    (trial : Trial) (llm_result : Except Str Str) : Except Str (Option MatchCreate) :=
  match fault with
  | some _ => Except.ok none
  | none => Except.ok (some (evaluate_trial_core patient_id patient trial llm_result))

/-- One insertion step of the stable descending sort; a new element (earlier
in the input) is placed before any element of equal confidence. -/
def insert_desc (m : MatchCreate) : List MatchCreate → List MatchCreate
  | [] => [m]
  | b :: l =>
    if b.confidence_score ≤ m.confidence_score then m :: b :: l
    else b :: insert_desc m l

/-- Python's stable
`matches.sort(key=lambda m: m.confidence_score, reverse=True)`:
descending by confidence, ties kept in input order. -/
def sort_desc (l : List MatchCreate) : List MatchCreate := l.foldr insert_desc []

/-- The survivor-collection loop in `MatcherAgent.find_matches`:
gather-level exceptions are logged and skipped, `None` results are falsy and
skipped, and surviving results are kept when
`confidence_score >= min_confidence`. -/
def collect_matches (results : List (Except Str (Option MatchCreate)))
    (min_confidence : ℚ) : List MatchCreate :=
  results.filterMap (fun r =>
    match r with
    | Except.error _ => none
    | Except.ok none => none
    | Except.ok (some m) =>
      if min_confidence ≤ m.confidence_score then some m else none)

/-- `MatcherAgent.find_matches`: evaluate every trial (the per-trial fault
and collaborator outcomes are supplied as functions), collect the survivors,
sort by confidence descending (stable), and truncate to `top_k`; the
defaults in the source are `min_confidence = 40.0`, `top_k = 10`. -/
def find_matches (patient_id : Nat) (patient : PatientProfile) (trials : List Trial)
    (fault : Trial → Option Str) (llm : Trial → Except Str Str)
    (min_confidence : ℚ) (top_k : Nat) : List MatchCreate :=
  let results := trials.map (fun t => evaluate_trial (fault t) patient_id patient t (llm t))
  (sort_desc (collect_matches results min_confidence)).take top_k

end MatcherAgent

section Lemmas

open MeTTaReasoner MatcherAgent

/-- Casting the structural integer power of ten to `ℚ`. -/
theorem ipow10_cast (n : Nat) : ((ipow10 n : Int) : ℚ) = 10 ^ n := by
  induction n with
  | zero => simp [ipow10]
  | succ k ih => push_cast [ipow10, pow_succ, ih]; ring

/-- `Dec.ble` decides the rational comparison of the represented values. -/
theorem Dec.ble_iff (a b : Dec) : Dec.ble a b = true ↔ a.toRat ≤ b.toRat := by
  unfold Dec.ble Dec.toRat
  have hpow : ∀ m : Int, (0 : ℚ) < 10 ^ m := fun m => zpow_pos (by norm_num) m
  split
  · rename_i h
    rw [decide_eq_true_iff]
    have hd : ((b.exp - a.exp).toNat : Int) = b.exp - a.exp := Int.toNat_of_nonneg (by omega)
    have key : ((b.num * ipow10 (b.exp - a.exp).toNat : Int) : ℚ) * 10 ^ a.exp =
        (b.num : ℚ) * 10 ^ b.exp := by
      push_cast [ipow10_cast]
      rw [mul_assoc, ← zpow_natCast (10 : ℚ), ← zpow_add₀ (by norm_num : (10:ℚ) ≠ 0), hd]
      ring_nf
    constructor
    · intro hle
      calc (a.num : ℚ) * 10 ^ a.exp
          ≤ ((b.num * ipow10 (b.exp - a.exp).toNat : Int) : ℚ) * 10 ^ a.exp := by
            exact mul_le_mul_of_nonneg_right (by exact_mod_cast hle) (le_of_lt (hpow _))
        _ = (b.num : ℚ) * 10 ^ b.exp := key
    · intro hle
      have hle2 : (a.num : ℚ) * 10 ^ a.exp ≤
          ((b.num * ipow10 (b.exp - a.exp).toNat : Int) : ℚ) * 10 ^ a.exp := by
        rw [key]; exact hle
      have := (mul_le_mul_right (hpow a.exp)).1 hle2
      exact_mod_cast this
  · rename_i h
    rw [decide_eq_true_iff]
    have hd : ((a.exp - b.exp).toNat : Int) = a.exp - b.exp := Int.toNat_of_nonneg (by omega)
    have key : ((a.num * ipow10 (a.exp - b.exp).toNat : Int) : ℚ) * 10 ^ b.exp =
        (a.num : ℚ) * 10 ^ a.exp := by
      push_cast [ipow10_cast]
      rw [mul_assoc, ← zpow_natCast (10 : ℚ), ← zpow_add₀ (by norm_num : (10:ℚ) ≠ 0), hd]
      ring_nf
    constructor
    · intro hle
      calc (a.num : ℚ) * 10 ^ a.exp
          = ((a.num * ipow10 (a.exp - b.exp).toNat : Int) : ℚ) * 10 ^ b.exp := key.symm
        _ ≤ (b.num : ℚ) * 10 ^ b.exp := by
            exact mul_le_mul_of_nonneg_right (by exact_mod_cast hle) (le_of_lt (hpow _))
    · intro hle
      have hle2 : ((a.num * ipow10 (a.exp - b.exp).toNat : Int) : ℚ) * 10 ^ b.exp ≤
          (b.num : ℚ) * 10 ^ b.exp := by
        rw [key]; exact hle
      have := (mul_le_mul_right (hpow b.exp)).1 hle2
      exact_mod_cast this

end Lemmas

section ReasonLemmas

open MeTTaReasoner

/-- Branch lemma for `reason`: some critical rule scores strictly below 0.5. -/
theorem reason_of_critical_lt (p : PatientProfile) (t : Trial)
    (h : rule_age_in_range p t < 1/2 ∨ rule_gender_match p t < 1/2 ∨
         rule_no_contraindications p t < 1/2) :
    reason p t = (false,
      min ((rule_age_in_range p t + rule_gender_match p t + rule_has_biomarkers p t +
        rule_condition_match p t + rule_no_contraindications p t) / 5 * (3/10) * 100) 100) := by
  have hcond : (((rule_scores p t).filter (fun s => critical_rules.contains s.1)).map
      (fun s => s.2)).any (fun s => decide (s < 1/2)) = true := by
    have hb : ((rule_scores p t).filter (fun s => critical_rules.contains s.1)).map
        (fun s => s.2) =
        [rule_age_in_range p t, rule_gender_match p t, rule_no_contraindications p t] := rfl
    rw [hb]
    simp only [List.any_cons, List.any_nil, Bool.or_false, Bool.or_eq_true, decide_eq_true_iff]
    exact h
  have hsum : ((rule_scores p t).map (fun s => s.2)).sum =
      rule_age_in_range p t + (rule_gender_match p t + (rule_has_biomarkers p t +
        (rule_condition_match p t + (rule_no_contraindications p t + 0)))) := rfl
  have hlen : ((rule_scores p t).length : ℚ) = 5 := by norm_num [rule_scores]
  unfold reason
  rw [hcond]
  simp only [eq_self_iff_true, if_true, hsum, hlen]
  congr 1
  ring

/-- Branch lemma for `reason`: every critical rule scores at least 0.5. -/
theorem reason_of_critical_ge (p : PatientProfile) (t : Trial)
    (h : 1/2 ≤ rule_age_in_range p t ∧ 1/2 ≤ rule_gender_match p t ∧
         1/2 ≤ rule_no_contraindications p t) :
    reason p t = (true,
      min ((15/100 * rule_age_in_range p t + 10/100 * rule_gender_match p t +
        30/100 * rule_has_biomarkers p t + 30/100 * rule_condition_match p t +
        15/100 * rule_no_contraindications p t) * 100) 100) := by
  have hwA : rule_weight "age_eligibility".toList = 15/100 := by
    unfold rule_weight; rw [if_pos rfl]
  have hwG : rule_weight "gender_eligibility".toList = 10/100 := by
    unfold rule_weight; rw [if_neg (by decide), if_pos rfl]
  have hwB : rule_weight "biomarker_match".toList = 30/100 := by
    unfold rule_weight; rw [if_neg (by decide), if_neg (by decide), if_pos rfl]
  have hwC : rule_weight "condition_match".toList = 30/100 := by
    unfold rule_weight; rw [if_neg (by decide), if_neg (by decide), if_neg (by decide), if_pos rfl]
  have hwN : rule_weight "no_contraindications".toList = 15/100 := by
    unfold rule_weight
    rw [if_neg (by decide), if_neg (by decide), if_neg (by decide), if_neg (by decide), if_pos rfl]
  have hcond : (((rule_scores p t).filter (fun s => critical_rules.contains s.1)).map
      (fun s => s.2)).any (fun s => decide (s < 1/2)) = false := by
    have hb : ((rule_scores p t).filter (fun s => critical_rules.contains s.1)).map
        (fun s => s.2) =
        [rule_age_in_range p t, rule_gender_match p t, rule_no_contraindications p t] := rfl
    rw [hb]
    simp only [List.any_cons, List.any_nil, Bool.or_false, Bool.or_eq_false_iff,
      decide_eq_false_iff_not, not_lt]
    exact ⟨h.1, h.2.1, h.2.2⟩
  have hsum : ((rule_scores p t).map (fun s => rule_weight s.1 * s.2)).sum =
      rule_weight "age_eligibility".toList * rule_age_in_range p t +
        (rule_weight "gender_eligibility".toList * rule_gender_match p t +
          (rule_weight "biomarker_match".toList * rule_has_biomarkers p t +
            (rule_weight "condition_match".toList * rule_condition_match p t +
              (rule_weight "no_contraindications".toList * rule_no_contraindications p t + 0)))) :=
    rfl
  unfold reason
  rw [hcond]
  simp only [Bool.false_eq_true, if_false, hsum, hwA, hwG, hwB, hwC, hwN]
  congr 1
  ring

end ReasonLemmas

section BoundLemmas

open MeTTaReasoner

/-- The age rule never exceeds 1. -/
theorem rule_age_in_range_le_one (p : PatientProfile) (t : Trial) :
    rule_age_in_range p t ≤ 1 := by
  unfold rule_age_in_range
  split
  · norm_num
  · split
    · norm_num
    · split
      · norm_num
      · rename_i pmin pmax heq
        dsimp only
        split
        · norm_num
        · rename_i hno
          split
          · rename_i hpos
            have hd : (0 : ℚ) < ((pmax - pmin + 1 : Int) : ℚ) := by exact_mod_cast hpos
            rw [div_le_one hd]
            have key : (min pmax (pyOrInt t.age_max 120) -
                max pmin (pyOrInt t.age_min 0) + 1 : Int) ≤ pmax - pmin + 1 := by omega
            exact_mod_cast key
          · norm_num

/-- With ordered effective trial bounds the age rule is non-negative. -/
theorem rule_age_in_range_nonneg (p : PatientProfile) (t : Trial)
    (hb : pyOrInt t.age_min 0 ≤ pyOrInt t.age_max 120) :
    0 ≤ rule_age_in_range p t := by
  unfold rule_age_in_range
  split
  · norm_num
  · split
    · norm_num
    · split
      · norm_num
      · rename_i pmin pmax heq
        dsimp only
        split
        · norm_num
        · rename_i hno
          split
          · rename_i hpos
            apply div_nonneg
            · have key : (0 : Int) ≤ min pmax (pyOrInt t.age_max 120) -
                  max pmin (pyOrInt t.age_min 0) + 1 := by omega
              exact_mod_cast key
            · have key : (0 : Int) ≤ pmax - pmin + 1 := by omega
              exact_mod_cast key
          · norm_num

/-- The gender rule takes values in `{0, 1/2, 1}` and so lies in `[0, 1]`. -/
theorem rule_gender_match_bounds (p : PatientProfile) (t : Trial) :
    0 ≤ rule_gender_match p t ∧ rule_gender_match p t ≤ 1 := by
  unfold rule_gender_match
  rcases hg : p.gender with _ | g <;> simp only [hg] <;> split_ifs <;> norm_num

/-- The biomarker rule lies in `[0, 1]`. -/
theorem rule_has_biomarkers_bounds (p : PatientProfile) (t : Trial) :
    0 ≤ rule_has_biomarkers p t ∧ rule_has_biomarkers p t ≤ 1 := by
  unfold rule_has_biomarkers
  dsimp only
  split
  · norm_num
  · split
    · rename_i hpos
      constructor
      · positivity
      · rw [div_le_one (by exact_mod_cast hpos)]
        exact_mod_cast List.length_filter_le _ _
    · norm_num

/-- The condition rule lies in `[0, 1]`. -/
theorem rule_condition_match_bounds (p : PatientProfile) (t : Trial) :
    0 ≤ rule_condition_match p t ∧ rule_condition_match p t ≤ 1 := by
  unfold rule_condition_match
  dsimp only
  split
  · norm_num
  · split
    · norm_num
    · rename_i hne _
      have hlen : 0 < (t.conditions.map pyLower).length := by
        cases hmap : t.conditions.map pyLower with
        | nil => rw [hmap] at hne; simp at hne
        | cons a l => simp
      constructor
      · positivity
      · rw [div_le_one (by exact_mod_cast hlen)]
        exact_mod_cast List.length_filter_le _ _

/-- The contraindication rule takes values in `{0, 1}`. -/
theorem rule_no_contraindications_bounds (p : PatientProfile) (t : Trial) :
    0 ≤ rule_no_contraindications p t ∧ rule_no_contraindications p t ≤ 1 := by
  unfold rule_no_contraindications
  dsimp only
  split
  · norm_num
  · split <;> norm_num

/-- The diversity bonus is non-negative and never exceeds 13 (the sum of all
four bonuses), in particular it stays within the declared cap of 15. -/
theorem calculate_diversity_bonus_bounds (p : PatientProfile) :
    0 ≤ (calculate_diversity_bonus p).1 ∧ (calculate_diversity_bonus p).1 ≤ 13 := by
  unfold calculate_diversity_bonus
  rcases he : p.ethnicity with _ | e <;> rcases hg : p.gender with _ | g <;>
    rcases hl : p.location_region with _ | l <;> rcases ha : p.age_range with _ | ar <;>
    simp only [he, hg, hl, ha] <;> (try split_ifs) <;>
    exact ⟨le_min (by norm_num) (by norm_num), min_le_of_left_le (by norm_num)⟩

end BoundLemmas

section ConfidenceLemmas

open MeTTaReasoner MatcherAgent

/-- Each rule score is at most 1. -/
theorem rule_scores_le_one (p : PatientProfile) (t : Trial) :
    rule_age_in_range p t ≤ 1 ∧ rule_gender_match p t ≤ 1 ∧ rule_has_biomarkers p t ≤ 1 ∧
      rule_condition_match p t ≤ 1 ∧ rule_no_contraindications p t ≤ 1 :=
  ⟨rule_age_in_range_le_one p t, (rule_gender_match_bounds p t).2,
    (rule_has_biomarkers_bounds p t).2, (rule_condition_match_bounds p t).2,
    (rule_no_contraindications_bounds p t).2⟩

/-- The reported base confidence never exceeds 100. -/
theorem reason_snd_le_100 (p : PatientProfile) (t : Trial) : (reason p t).2 ≤ 100 := by
  unfold reason
  split <;> exact min_le_right _ _

/-- An ineligible evaluation's base confidence is strictly below 27. -/
theorem reason_false_snd_lt (p : PatientProfile) (t : Trial)
    (h : (reason p t).1 = false) : (reason p t).2 < 27 := by
  by_cases hc : rule_age_in_range p t < 1/2 ∨ rule_gender_match p t < 1/2 ∨
      rule_no_contraindications p t < 1/2
  · rw [reason_of_critical_lt p t hc]
    have hle := rule_scores_le_one p t
    have hsum : rule_age_in_range p t + rule_gender_match p t + rule_has_biomarkers p t +
        rule_condition_match p t + rule_no_contraindications p t < 9/2 := by
      rcases hc with hc | hc | hc <;> nlinarith [hle.1, hle.2.1, hle.2.2.1, hle.2.2.2.1,
        hle.2.2.2.2]
    calc min ((rule_age_in_range p t + rule_gender_match p t + rule_has_biomarkers p t +
          rule_condition_match p t + rule_no_contraindications p t) / 5 * (3/10) * 100) 100
        ≤ (rule_age_in_range p t + rule_gender_match p t + rule_has_biomarkers p t +
          rule_condition_match p t + rule_no_contraindications p t) / 5 * (3/10) * 100 :=
          min_le_left _ _
      _ < 27 := by nlinarith [hsum]
  · push_neg at hc
    rw [reason_of_critical_ge p t ⟨hc.1, hc.2.1, hc.2.2⟩] at h
    simp at h

/-- With ordered effective trial age bounds the base confidence is
non-negative. -/
theorem reason_snd_nonneg (p : PatientProfile) (t : Trial)
    (hb : pyOrInt t.age_min 0 ≤ pyOrInt t.age_max 120) : 0 ≤ (reason p t).2 := by
  have ha := rule_age_in_range_nonneg p t hb
  have hg := (rule_gender_match_bounds p t).1
  have hbm := (rule_has_biomarkers_bounds p t).1
  have hcm := (rule_condition_match_bounds p t).1
  have hnc := (rule_no_contraindications_bounds p t).1
  by_cases hc : rule_age_in_range p t < 1/2 ∨ rule_gender_match p t < 1/2 ∨
      rule_no_contraindications p t < 1/2
  · rw [reason_of_critical_lt p t hc]
    exact le_min (by positivity) (by norm_num)
  · push_neg at hc
    rw [reason_of_critical_ge p t ⟨hc.1, hc.2.1, hc.2.2⟩]
    exact le_min (by positivity) (by norm_num)

/-- With ordered effective trial age bounds the final confidence lies in
`[0, 100]`. -/
theorem final_confidence_bounds (p : PatientProfile) (t : Trial)
    (hb : pyOrInt t.age_min 0 ≤ pyOrInt t.age_max 120) :
    0 ≤ final_confidence p t ∧ final_confidence p t ≤ 100 := by
  unfold final_confidence
  constructor
  · exact le_min (add_nonneg (reason_snd_nonneg p t hb)
      (calculate_diversity_bonus_bounds p).1) (by norm_num)
  · exact min_le_right _ _

/-- An ineligible candidate's final confidence is strictly below 40. -/
theorem final_confidence_lt_40_of_ineligible (p : PatientProfile) (t : Trial)
    (h : (reason p t).1 = false) : final_confidence p t < 40 := by
  unfold final_confidence
  calc min ((reason p t).2 + (calculate_diversity_bonus p).1) 100
      ≤ (reason p t).2 + (calculate_diversity_bonus p).1 := min_le_left _ _
    _ < 27 + 13 := by
        have h1 := reason_false_snd_lt p t h
        have h2 := (calculate_diversity_bonus_bounds p).2
        linarith
    _ = 40 := by norm_num

end ConfidenceLemmas

section SortLemmas

open MatcherAgent

/-- Membership in an insertion step. -/
theorem mem_insert_desc (m x : MatchCreate) (l : List MatchCreate) :
    x ∈ insert_desc m l ↔ x = m ∨ x ∈ l := by
  induction l with
  | nil => simp [insert_desc]
  | cons b rest ih =>
    unfold insert_desc
    split
    · simp
      try tauto
    · simp [ih]
      try tauto

/-- Insertion preserves the descending-by-confidence pairwise order. -/
theorem insert_desc_pairwise (m : MatchCreate) (l : List MatchCreate)
    (h : l.Pairwise (fun a b => b.confidence_score ≤ a.confidence_score)) :
    (insert_desc m l).Pairwise (fun a b => b.confidence_score ≤ a.confidence_score) := by
  induction l with
  | nil => simp [insert_desc]
  | cons b rest ih =>
    unfold insert_desc
    split
    · rename_i hle
      refine List.Pairwise.cons ?_ h
      intro x hx
      rcases List.mem_cons.1 hx with hx | hx
      · subst hx; exact hle
      · exact le_trans ((List.pairwise_cons.1 h).1 x hx) hle
    · rename_i hgt
      push_neg at hgt
      refine List.Pairwise.cons ?_ (ih (List.pairwise_cons.1 h).2)
      intro x hx
      rcases (mem_insert_desc m x rest).1 hx with hx | hx
      · subst hx; exact le_of_lt hgt
      · exact (List.pairwise_cons.1 h).1 x hx

/-- The stable sort produces a descending-by-confidence list. -/
theorem sort_desc_pairwise (l : List MatchCreate) :
    (sort_desc l).Pairwise (fun a b => b.confidence_score ≤ a.confidence_score) := by
  induction l with
  | nil => simp [sort_desc]
  | cons b rest ih => exact insert_desc_pairwise b _ ih

/-- Membership in the stable sort. -/
theorem mem_sort_desc (x : MatchCreate) (l : List MatchCreate) :
    x ∈ sort_desc l ↔ x ∈ l := by
  induction l with
  | nil => simp [sort_desc]
  | cons b rest ih =>
    show x ∈ insert_desc b (sort_desc rest) ↔ _
    rw [mem_insert_desc, ih]
    simp
    try tauto

/-- Insertion commutes with filtering one confidence class: the inserted
element lands in front of its class, so class order is preserved. -/
theorem insert_desc_filter_conf (c : ℚ) (m : MatchCreate) (l : List MatchCreate) :
    (insert_desc m l).filter (fun x => decide (x.confidence_score = c)) =
      if m.confidence_score = c
      then m :: l.filter (fun x => decide (x.confidence_score = c))
      else l.filter (fun x => decide (x.confidence_score = c)) := by
  induction l with
  | nil =>
    by_cases hm : m.confidence_score = c <;> simp [insert_desc, List.filter, hm]
  | cons b rest ih =>
    unfold insert_desc
    split
    · rename_i hle
      by_cases hm : m.confidence_score = c <;> simp [List.filter, hm]
    · rename_i hgt
      push_neg at hgt
      by_cases hm : m.confidence_score = c
      · have hb : ¬ b.confidence_score = c := by
          intro hbc
          rw [hbc, ← hm] at hgt
          exact absurd rfl (ne_of_gt hgt)
        simp only [List.filter_cons, ih, hm, if_true]
        simp [hb]
      · simp only [List.filter_cons, ih, hm, if_false]

/-- Stability of the sort: each equal-confidence class keeps its input
order. -/
theorem sort_desc_filter_conf (c : ℚ) (l : List MatchCreate) :
    (sort_desc l).filter (fun x => decide (x.confidence_score = c)) =
      l.filter (fun x => decide (x.confidence_score = c)) := by
  induction l with
  | nil => rfl
  | cons b rest ih =>
    show (insert_desc b (sort_desc rest)).filter _ = _
    rw [insert_desc_filter_conf]
    by_cases hb : b.confidence_score = c <;> simp [List.filter_cons, hb, ih]

end SortLemmas

section BatchLemmas

open MatcherAgent

/-- Every match returned by the batch runner is the evaluation of one of the
input trials whose evaluation did not fault, and it passed the
minimum-confidence filter. -/
theorem mem_find_matches (pid : Nat) (p : PatientProfile) (trials : List Trial)
    (fault : Trial → Option Str) (llm : Trial → Except Str Str) (minc : ℚ) (k : Nat)
    (m : MatchCreate) (h : m ∈ find_matches pid p trials fault llm minc k) :
    ∃ t ∈ trials, fault t = none ∧ m = evaluate_trial_core pid p t (llm t) ∧
      minc ≤ m.confidence_score := by
  unfold find_matches at h
  have h1 := List.mem_of_mem_take h
  rw [mem_sort_desc] at h1
  unfold collect_matches at h1
  rw [List.mem_filterMap] at h1
  obtain ⟨r, hr, hfr⟩ := h1
  rw [List.mem_map] at hr
  obtain ⟨t, ht, hrt⟩ := hr
  subst hrt
  refine ⟨t, ht, ?_⟩
  unfold evaluate_trial at hfr
  rcases hf : fault t with _ | f
  · rw [hf] at hfr
    simp only at hfr
    split at hfr
    · rename_i hc
      exact ⟨rfl, by injection hfr with h2; rw [← h2], by injection hfr with h2; rw [← h2]; exact hc⟩
    · exact absurd hfr (by simp)
  · rw [hf] at hfr
    simp at hfr

/-- Removing one faulted evaluation outcome from a batch leaves the
collected survivors unchanged. -/
theorem collect_matches_append (pre post : List (Except Str (Option MatchCreate)))
    (r : Except Str (Option MatchCreate)) (minc : ℚ)
    (hr : r = Except.ok none ∨ ∃ e, r = Except.error e) :
    collect_matches (pre ++ r :: post) minc = collect_matches (pre ++ post) minc := by
  unfold collect_matches
  rw [List.filterMap_append, List.filterMap_append, List.filterMap_cons]
  rcases hr with hr | ⟨e, hr⟩ <;> subst hr <;> rfl

end BatchLemmas

section Instances

open MeTTaReasoner MatcherAgent

/-- Spec scenario B subject: takes `lisinopril`, everything else absent. -/
def patientB : PatientProfile :=
  { age_range := none, gender := none, conditions := [], biomarkers := [],
    medications := ["lisinopril".toList], ethnicity := none, location_region := none }

/-- Spec scenario B offering: excludes `Lisinopril`, gender `all`. -/
def trialB : Trial :=
  { id := 1, nct_id := "NCT-B".toList, conditions := [], age_min := none, age_max := none,
    gender_eligibility := "all".toList, required_biomarkers := [],
    excluded_conditions := [], excluded_medications := ["Lisinopril".toList] }

theorem age_B : rule_age_in_range patientB trialB = 1/2 := rfl

theorem gender_B : rule_gender_match patientB trialB = 1 := rfl

theorem bio_B : rule_has_biomarkers patientB trialB = 1 := rfl

theorem cond_B : rule_condition_match patientB trialB = 1/2 := rfl

theorem noc_B : rule_no_contraindications patientB trialB = 0 := rfl

theorem reason_B : reason patientB trialB = (false, 18) := by
  rw [reason_of_critical_lt patientB trialB (Or.inr (Or.inr (by rw [noc_B]; norm_num)))]
  rw [age_B, gender_B, bio_B, cond_B, noc_B]
  norm_num

theorem bonus_B : (calculate_diversity_bonus patientB).1 = 0 := by
  have h : calculate_diversity_bonus patientB = (min ((0:ℚ) + 0 + 0 + 0) 15, []) := rfl
  rw [h]
  norm_num

theorem final_B : final_confidence patientB trialB = 18 := by
  unfold final_confidence
  rw [reason_B, bonus_B]
  norm_num

/-- Batch subject for the ranking scenarios: one condition, everything else
absent. -/
def patientC : PatientProfile :=
  { age_range := none, gender := none, conditions := ["diabetes".toList], biomarkers := [],
    medications := [], ethnicity := none, location_region := none }

/-- A fully matching offering with identifier 2. -/
def trialA2 : Trial :=
  { id := 2, nct_id := "NCT-2".toList, conditions := ["diabetes".toList], age_min := none,
    age_max := none, gender_eligibility := "all".toList, required_biomarkers := [],
    excluded_conditions := [], excluded_medications := [] }

/-- The same offering with identifier 1. -/
def trialB1 : Trial :=
  { id := 1, nct_id := "NCT-1".toList, conditions := ["diabetes".toList], age_min := none,
    age_max := none, gender_eligibility := "all".toList, required_biomarkers := [],
    excluded_conditions := [], excluded_medications := [] }

theorem cond_C2 : rule_condition_match patientC trialA2 = ((1:Nat):ℚ)/((1:Nat):ℚ) := rfl

theorem reason_C2 : reason patientC trialA2 = (true, 185/2) := by
  have hcond : rule_condition_match patientC trialA2 = 1 := by rw [cond_C2]; norm_num
  have hage : rule_age_in_range patientC trialA2 = 1/2 := rfl
  have hgen : rule_gender_match patientC trialA2 = 1 := rfl
  have hbio : rule_has_biomarkers patientC trialA2 = 1 := rfl
  have hnoc : rule_no_contraindications patientC trialA2 = 1 := rfl
  rw [reason_of_critical_ge patientC trialA2
    (by rw [hage, hgen, hnoc]; norm_num)]
  rw [hage, hgen, hbio, hcond, hnoc]
  norm_num

theorem cond_C1 : rule_condition_match patientC trialB1 = ((1:Nat):ℚ)/((1:Nat):ℚ) := rfl

theorem reason_C1 : reason patientC trialB1 = (true, 185/2) := by
  have hcond : rule_condition_match patientC trialB1 = 1 := by rw [cond_C1]; norm_num
  have hage : rule_age_in_range patientC trialB1 = 1/2 := rfl
  have hgen : rule_gender_match patientC trialB1 = 1 := rfl
  have hbio : rule_has_biomarkers patientC trialB1 = 1 := rfl
  have hnoc : rule_no_contraindications patientC trialB1 = 1 := rfl
  rw [reason_of_critical_ge patientC trialB1
    (by rw [hage, hgen, hnoc]; norm_num)]
  rw [hage, hgen, hbio, hcond, hnoc]
  norm_num

theorem bonus_C : (calculate_diversity_bonus patientC).1 = 0 := by
  have h : calculate_diversity_bonus patientC = (min ((0:ℚ) + 0 + 0 + 0) 15, []) := rfl
  rw [h]
  norm_num

theorem final_C2 : final_confidence patientC trialA2 = 185/2 := by
  unfold final_confidence
  rw [reason_C2, bonus_C]
  norm_num

theorem final_C1 : final_confidence patientC trialB1 = 185/2 := by
  unfold final_confidence
  rw [reason_C1, bonus_C]
  norm_num

end Instances

section Instances2

open MeTTaReasoner MatcherAgent

/-- Subject whose age interval straddles an inverted offering age window. -/
def patientX : PatientProfile :=
  { age_range := some "30-60".toList, gender := some "male".toList, conditions := [],
    biomarkers := [], medications := ["aspirin".toList], ethnicity := none,
    location_region := none }

/-- Offering with inverted age bounds (`age_min = 50 > age_max = 40`),
gender `female`, one required biomarker, and an excluded medication the
subject takes. -/
def trialX : Trial :=
  { id := 4, nct_id := "NCT-4".toList, conditions := ["lupus".toList], age_min := some 50,
    age_max := some 40, gender_eligibility := "female".toList,
    required_biomarkers := [("x".toList, "positive".toList)],
    excluded_conditions := [], excluded_medications := ["aspirin".toList] }

theorem age_X : rule_age_in_range patientX trialX = ((-9 : Int) : ℚ) / ((31 : Int) : ℚ) := rfl

theorem gender_X : rule_gender_match patientX trialX = 0 := rfl

theorem bio_X : rule_has_biomarkers patientX trialX = ((0:Nat):ℚ)/((1:Nat):ℚ) := rfl

theorem cond_X : rule_condition_match patientX trialX = 0 := rfl

theorem noc_X : rule_no_contraindications patientX trialX = 0 := rfl

theorem reason_X : reason patientX trialX = (false, -54/31) := by
  rw [reason_of_critical_lt patientX trialX (Or.inr (Or.inr (by rw [noc_X]; norm_num)))]
  rw [age_X, gender_X, bio_X, cond_X, noc_X]
  norm_num

theorem bonus_X : (calculate_diversity_bonus patientX).1 = 0 := by
  have h : calculate_diversity_bonus patientX = (min ((0:ℚ) + 0 + 0 + 0) 15, []) := rfl
  rw [h]
  norm_num

theorem final_X : final_confidence patientX trialX = -54/31 := by
  unfold final_confidence
  rw [reason_X, bonus_X]
  norm_num

/-- Subject storing a biomarker under an upper-case key. -/
def patientE : PatientProfile :=
  { age_range := none, gender := none, conditions := [],
    biomarkers := [("EGFR".toList, "positive".toList)], medications := [],
    ethnicity := none, location_region := none }

/-- Offering requiring the same biomarker under the lower-case key. -/
def trialE : Trial :=
  { id := 3, nct_id := "NCT-3".toList, conditions := [], age_min := none, age_max := none,
    gender_eligibility := "all".toList,
    required_biomarkers := [("egfr".toList, "positive".toList)],
    excluded_conditions := [], excluded_medications := [] }

/-- Spec scenario D subject: hispanic female in a rural region, age 65+. -/
def patientD : PatientProfile :=
  { age_range := some "65+".toList, gender := some "female".toList, conditions := [],
    biomarkers := [], medications := [], ethnicity := some "hispanic".toList,
    location_region := some "Rural County".toList }

end Instances2

section ClaimsA

open MeTTaReasoner MatcherAgent

/-- C1: `RuleEvaluator.evaluate` (`MeTTaReasoner.reason`) applies the five
fixed rules and gates on the critical rules {age, gender, contraindication}
at 0.5: below the gate it is ineligible with base confidence percent equal
to the mean of the five rule scores times 100 times 0.3; otherwise eligible
with base confidence percent equal to 100 times the weighted sum with
weights age 0.15, gender 0.10, biomarker 0.30, condition 0.30,
contraindication 0.15. -/
theorem C1_critical_gate_and_weighted_confidence (p : PatientProfile) (t : Trial) :
    ((rule_age_in_range p t < 1/2 ∨ rule_gender_match p t < 1/2 ∨
        rule_no_contraindications p t < 1/2) →
      reason p t = (false,
        (rule_age_in_range p t + rule_gender_match p t + rule_has_biomarkers p t +
          rule_condition_match p t + rule_no_contraindications p t) / 5 * 100 * (3/10))) ∧
    ((1/2 ≤ rule_age_in_range p t ∧ 1/2 ≤ rule_gender_match p t ∧
        1/2 ≤ rule_no_contraindications p t) →
      reason p t = (true,
        100 * (15/100 * rule_age_in_range p t + 10/100 * rule_gender_match p t +
          30/100 * rule_has_biomarkers p t + 30/100 * rule_condition_match p t +
          15/100 * rule_no_contraindications p t))) := by
  have hle := rule_scores_le_one p t
  constructor
  · intro h
    rw [reason_of_critical_lt p t h]
    have hmin : (rule_age_in_range p t + rule_gender_match p t + rule_has_biomarkers p t +
        rule_condition_match p t + rule_no_contraindications p t) / 5 * (3/10) * 100 ≤ 100 := by
      nlinarith [hle.1, hle.2.1, hle.2.2.1, hle.2.2.2.1, hle.2.2.2.2]
    rw [min_eq_left hmin]
    congr 1
    ring
  · intro h
    rw [reason_of_critical_ge p t h]
    have hmin : (15/100 * rule_age_in_range p t + 10/100 * rule_gender_match p t +
        30/100 * rule_has_biomarkers p t + 30/100 * rule_condition_match p t +
        15/100 * rule_no_contraindications p t) * 100 ≤ 100 := by
      nlinarith [hle.1, hle.2.1, hle.2.2.1, hle.2.2.2.1, hle.2.2.2.2]
    rw [min_eq_left hmin]
    congr 1
    ring

/-- Witness for C1 at spec scenario B: the contraindication rule fails the
critical gate and the ineligible formula applies. -/
theorem C1_witness :
    rule_no_contraindications patientB trialB < 1/2 ∧
    reason patientB trialB = (false,
      (rule_age_in_range patientB trialB + rule_gender_match patientB trialB +
        rule_has_biomarkers patientB trialB + rule_condition_match patientB trialB +
        rule_no_contraindications patientB trialB) / 5 * 100 * (3/10)) :=
  ⟨by rw [noc_B]; norm_num,
   (C1_critical_gate_and_weighted_confidence patientB trialB).1
     (Or.inr (Or.inr (by rw [noc_B]; norm_num)))⟩

/-- C5 (amended): provided the offering's effective age bounds are ordered
(`age_min` defaulted to 0 and `age_max` defaulted to 120, a stored 0 meaning
absent), each of the five rule scores lies in [0,1] and the final confidence
lies in [0,100]. -/
theorem C5_scores_and_final_confidence_bounded (p : PatientProfile) (t : Trial)
    (hb : pyOrInt t.age_min 0 ≤ pyOrInt t.age_max 120) :
    (0 ≤ rule_age_in_range p t ∧ rule_age_in_range p t ≤ 1) ∧
    (0 ≤ rule_gender_match p t ∧ rule_gender_match p t ≤ 1) ∧
    (0 ≤ rule_has_biomarkers p t ∧ rule_has_biomarkers p t ≤ 1) ∧
    (0 ≤ rule_condition_match p t ∧ rule_condition_match p t ≤ 1) ∧
    (0 ≤ rule_no_contraindications p t ∧ rule_no_contraindications p t ≤ 1) ∧
    (0 ≤ final_confidence p t ∧ final_confidence p t ≤ 100) :=
  ⟨⟨rule_age_in_range_nonneg p t hb, rule_age_in_range_le_one p t⟩,
   rule_gender_match_bounds p t, rule_has_biomarkers_bounds p t,
   rule_condition_match_bounds p t, rule_no_contraindications_bounds p t,
   final_confidence_bounds p t hb⟩

/-- Counterexample to C5 as stated: with inverted offering age bounds
(`age_min = 50 > age_max = 40`) the age rule score is negative and the
final confidence is negative. -/
theorem C5_counterexample :
    rule_age_in_range patientX trialX < 0 ∧ final_confidence patientX trialX < 0 := by
  constructor
  · rw [age_X]; norm_num
  · rw [final_X]; norm_num

/-- Witness for C5 at a concrete offering with ordered bounds. -/
theorem C5_witness :
    pyOrInt trialA2.age_min 0 ≤ pyOrInt trialA2.age_max 120 ∧
    (0 ≤ final_confidence patientC trialA2 ∧ final_confidence patientC trialA2 ≤ 100) :=
  ⟨by decide,
   (C5_scores_and_final_confidence_bounded patientC trialA2 (by decide)).2.2.2.2.2⟩

/-- C9 (amended): for an ineligible evaluation the base confidence is at
most 30 and the final confidence at most 45; in fact the base is strictly
below 27 and the final strictly below 40, so with the batch runner's default
minimum confidence of 40 an ineligible candidate never appears in the
ranked results (every returned match is eligible). -/
theorem C9_ineligible_confidence_demoted (p : PatientProfile) (t : Trial)
    (h : (reason p t).1 = false) :
    (reason p t).2 ≤ 30 ∧ final_confidence p t ≤ 45 ∧
    (reason p t).2 < 27 ∧ final_confidence p t < 40 ∧
    (∀ pid trials fault llm k m,
      m ∈ find_matches pid p trials fault llm 40 k → m.is_eligible = true) := by
  have h27 := reason_false_snd_lt p t h
  have h40 := final_confidence_lt_40_of_ineligible p t h
  refine ⟨by linarith, by linarith, h27, h40, ?_⟩
  intro pid trials fault llm k m hm
  obtain ⟨t', ht', hf, hmeq, hconf⟩ := mem_find_matches pid p trials fault llm 40 k m hm
  have hie : m.is_eligible = (reason p t').1 := by rw [hmeq]; rfl
  cases hb : (reason p t').1
  · have := final_confidence_lt_40_of_ineligible p t' hb
    have hcs : m.confidence_score = final_confidence p t' := by rw [hmeq]; rfl
    rw [hcs] at hconf
    linarith
  · rw [hie, hb]

/-- Counterexample to C9's last part as stated: no ineligible evaluation can
reach the default minimum confidence of 40 (the base stays below 27 and the
bonus sums to at most 13). -/
theorem C9_counterexample :
    ¬ ∃ (p : PatientProfile) (t : Trial), (reason p t).1 = false ∧
      40 ≤ final_confidence p t := by
  rintro ⟨p, t, hfalse, hge⟩
  exact absurd hge (not_le.2 (final_confidence_lt_40_of_ineligible p t hfalse))

/-- Witness for C9 at spec scenario B (an ineligible pair). -/
theorem C9_witness :
    (reason patientB trialB).1 = false ∧ (reason patientB trialB).2 ≤ 30 ∧
      final_confidence patientB trialB < 40 :=
  ⟨by rw [reason_B],
   (C9_ineligible_confidence_demoted patientB trialB (by rw [reason_B])).1,
   (C9_ineligible_confidence_demoted patientB trialB (by rw [reason_B])).2.2.2.1⟩

end ClaimsA

section ClaimsB

open MeTTaReasoner MatcherAgent

/-- The emptiness guard on the ethnicity bonus is redundant: the empty
string is not in the underrepresented set. -/
theorem eth_cond_eq (e : Str) :
    (!e.isEmpty && underrepresented_ethnicities.contains (pyLower e)) =
      underrepresented_ethnicities.contains (pyLower e) := by
  cases e
  · decide
  · rfl

/-- The emptiness guard on the gender bonus is redundant. -/
theorem gen_cond_eq (g : Str) :
    (!g.isEmpty && (pyLower g == "female".toList)) = (pyLower g == "female".toList) := by
  cases g
  · decide
  · rfl

/-- The emptiness guard on the rural bonus is redundant. -/
theorem loc_cond_eq (l : Str) :
    (!l.isEmpty && rural_indicators.any (fun ind => containsSub (pyLower l) ind)) =
      rural_indicators.any (fun ind => containsSub (pyLower l) ind) := by
  cases l
  · decide
  · rfl

/-- The emptiness guard on the age bonus is redundant. -/
theorem age_cond_eq (ar : Str) :
    (!ar.isEmpty && containsSub ar "65".toList) = containsSub ar "65".toList := by
  cases ar
  · decide
  · rfl

/-- C6: the diversity bonus equals `min` of the sum of the four
independently-triggered bonuses (+5 underrepresented ethnicity, +3 female,
+3 rural keyword in the region, +2 "65" in the age range) and 15; it always
lies in [0,15]; and spec scenario D (hispanic female, "Rural County",
"65+") receives exactly 13. -/
theorem C6_diversity_bonus_characterization (p : PatientProfile) :
    ((calculate_diversity_bonus p).1 =
      min ((if p.ethnicity.elim false
              (fun e => underrepresented_ethnicities.contains (pyLower e)) then (5:ℚ) else 0) +
           (if p.gender.elim false (fun g => pyLower g == "female".toList) then (3:ℚ) else 0) +
           (if p.location_region.elim false
              (fun l => rural_indicators.any (fun ind => containsSub (pyLower l) ind))
            then (3:ℚ) else 0) +
           (if p.age_range.elim false (fun ar => containsSub ar "65".toList)
            then (2:ℚ) else 0)) 15) ∧
    (0 ≤ (calculate_diversity_bonus p).1 ∧ (calculate_diversity_bonus p).1 ≤ 15) ∧
    (calculate_diversity_bonus patientD).1 = 13 := by
  refine ⟨?_, ⟨(calculate_diversity_bonus_bounds p).1,
    le_trans (calculate_diversity_bonus_bounds p).2 (by norm_num)⟩, ?_⟩
  · unfold calculate_diversity_bonus
    rcases he : p.ethnicity with _ | e <;> rcases hg : p.gender with _ | g <;>
      rcases hl : p.location_region with _ | l <;> rcases ha : p.age_range with _ | ar <;>
      simp only [he, hg, hl, ha, Option.elim_none, Option.elim_some] <;>
      (try rw [eth_cond_eq]) <;> (try rw [gen_cond_eq]) <;> (try rw [loc_cond_eq]) <;>
      (try rw [age_cond_eq]) <;>
      split_ifs <;> simp_all
  · have h13 : (calculate_diversity_bonus patientD).1 = min ((5:ℚ) + 3 + 3 + 2) 15 := rfl
    rw [h13]
    norm_num

end ClaimsB

section ClaimsC

open MeTTaReasoner MatcherAgent

/-- C8: for a fixed subject, offering, and identifiers, the confidence,
eligibility, base confidence, diversity data, and inclusion/exclusion
checklists of the single-candidate evaluation do not depend on the
explanation collaborator's outcome (in the embedding they are functions of
the subject and offering alone, so any two invocations coincide); only the
explanation text may differ, and on the fallback path the explanation is
the same templated string for any two failure messages. -/
theorem C8_deterministic_evaluation (pid : Nat) (p : PatientProfile) (t : Trial)
    (e₁ e₂ : Except Str Str) :
    (evaluate_trial_core pid p t e₁).confidence_score =
      (evaluate_trial_core pid p t e₂).confidence_score ∧
    (evaluate_trial_core pid p t e₁).is_eligible =
      (evaluate_trial_core pid p t e₂).is_eligible ∧
    (evaluate_trial_core pid p t e₁).base_confidence =
      (evaluate_trial_core pid p t e₂).base_confidence ∧
    (evaluate_trial_core pid p t e₁).diversity_bonus =
      (evaluate_trial_core pid p t e₂).diversity_bonus ∧
    (evaluate_trial_core pid p t e₁).diversity_factors =
      (evaluate_trial_core pid p t e₂).diversity_factors ∧
    (evaluate_trial_core pid p t e₁).inclusion_checks =
      (evaluate_trial_core pid p t e₂).inclusion_checks ∧
    (evaluate_trial_core pid p t e₁).exclusion_checks =
      (evaluate_trial_core pid p t e₂).exclusion_checks ∧
    (∀ m₁ m₂ : Str,
      (evaluate_trial_core pid p t (Except.error m₁)).gemini_explanation =
        (evaluate_trial_core pid p t (Except.error m₂)).gemini_explanation) :=
  ⟨rfl, rfl, rfl, rfl, rfl, rfl, rfl, fun _ _ => rfl⟩

/-- C7 (amended): an unexpected error in the deterministic scoring steps is
caught by `_evaluate_trial`'s blanket `except Exception` handler, which logs
it and returns `None` — the coroutine returns normally and no error is
surfaced to the caller; an explanation-collaborator failure is recovered
even more locally: the evaluation still returns a full record whose
explanation is the templated fallback string. -/
theorem C7_deterministic_errors_swallowed (f : Str) (pid : Nat) (p : PatientProfile)
    (t : Trial) (e : Except Str Str) (msg : Str) :
    evaluate_trial (some f) pid p t e = Except.ok none ∧
    evaluate_trial none pid p t (Except.error msg) =
      Except.ok (some (evaluate_trial_core pid p t (Except.error msg))) ∧
    (evaluate_trial_core pid p t (Except.error msg)).gemini_explanation =
      fallback_explanation (final_confidence p t) :=
  ⟨rfl, rfl, rfl⟩

/-- Counterexample to C7 as stated: a faulted deterministic evaluation at a
concrete input returns normally with `None` (`Except.ok`), so the error is
swallowed, not surfaced to the caller. -/
theorem C7_counterexample :
    evaluate_trial (some "boom".toList) 0 patientB trialB (Except.ok "text".toList) =
      Except.ok none ∧
    (evaluate_trial (some "boom".toList) 0 patientB trialB
      (Except.ok "text".toList)).isOk = true :=
  ⟨rfl, rfl⟩

/-- C10: the biomarker scoring rule lower-cases both the subject's and the
offering's keys, while the inclusion-report builder looks the biomarker up
only under the offering's lower-cased and exact keys; for a subject storing
"EGFR" against an offering requiring "egfr" the rule scores a full match
while the corresponding inclusion check is built with `passed = false`. -/
theorem C10_scoring_vs_inclusion_lookup_mismatch :
    rule_has_biomarkers patientE trialE = 1 ∧
    dictGetLast (patientE.biomarkers.map (fun kv => (pyLower kv.1, pyLower kv.2)))
      (pyLower "egfr".toList) = some "positive".toList ∧
    pyOrStr (dictGet patientE.biomarkers (pyLower "egfr".toList))
      (dictGet patientE.biomarkers "egfr".toList) = none ∧
    (build_inclusion_checks patientE trialE).map (fun c => c.passed) =
      [true, false, false] := by
  refine ⟨?_, by decide, by decide, by decide⟩
  have h : rule_has_biomarkers patientE trialE = ((1:Nat):ℚ)/((1:Nat):ℚ) := rfl
  rw [h]
  norm_num

/-- C3: a batch in which exactly one candidate's evaluation raises is
unaffected by that candidate: the run still returns normally (the batch is
a total function into a plain list) and equals the run over the other N−1
candidates, under the same minimum-confidence filter and top-k
truncation. -/
theorem C3_partial_failure_isolated (pid : Nat) (p : PatientProfile)
    (l₁ l₂ : List Trial) (t : Trial) (fault : Trial → Option Str)
    (llm : Trial → Except Str Str) (minc : ℚ) (k : Nat)
    (hfail : (fault t).isSome = true) (hok : ∀ t' ∈ l₁ ++ l₂, fault t' = none) :
    find_matches pid p (l₁ ++ t :: l₂) fault llm minc k =
      find_matches pid p (l₁ ++ l₂) fault llm minc k := by
  have hr : evaluate_trial (fault t) pid p t (llm t) = Except.ok none := by
    rcases hf : fault t with _ | f
    · rw [hf] at hfail
      simp at hfail
    · unfold evaluate_trial
      rfl
  unfold find_matches
  dsimp only
  rw [List.map_append, List.map_append, List.map_cons,
    collect_matches_append _ _ _ _ (Or.inl hr)]

/-- The fault assignment used in the C3 witness: candidate 1 faults. -/
def faultW : Trial → Option Str :=
  fun t' => if t'.id = 1 then some "boom".toList else none

/-- Witness for C3: a two-candidate batch in which the second candidate's
evaluation faults equals the one-candidate batch over the first. -/
theorem C3_witness :
    (faultW trialB1).isSome = true ∧
    find_matches 0 patientC ([trialA2] ++ trialB1 :: []) faultW
        (fun _ => Except.error "down".toList) 40 10 =
      find_matches 0 patientC ([trialA2] ++ []) faultW
        (fun _ => Except.error "down".toList) 40 10 :=
  ⟨by decide,
   C3_partial_failure_isolated 0 patientC [trialA2] [] trialB1 faultW
     (fun _ => Except.error "down".toList) 40 10 (by decide) (by decide)⟩

end ClaimsC

section ClaimsD

open MeTTaReasoner MatcherAgent

/-- C2 (amended): the batch output is sorted with confidence scores
non-increasing, and results of equal confidence keep the candidate-list
(input) order — Python's stable sort has no identifier tie-break. -/
theorem C2_sorted_desc_and_stable (pid : Nat) (p : PatientProfile) (trials : List Trial)
    (fault : Trial → Option Str) (llm : Trial → Except Str Str) (minc : ℚ) (k : Nat) :
    (find_matches pid p trials fault llm minc k).Pairwise
      (fun a b => b.confidence_score ≤ a.confidence_score) ∧
    (∀ c : ℚ,
      (sort_desc (collect_matches
          (trials.map (fun t => evaluate_trial (fault t) pid p t (llm t))) minc)).filter
          (fun m => decide (m.confidence_score = c)) =
        (collect_matches
          (trials.map (fun t => evaluate_trial (fault t) pid p t (llm t))) minc).filter
          (fun m => decide (m.confidence_score = c))) := by
  constructor
  · unfold find_matches
    dsimp only
    exact (sort_desc_pairwise _).sublist (List.take_sublist _ _)
  · intro c
    exact sort_desc_filter_conf c _

/-- Counterexample to C2 as stated: two candidates of equal confidence with
identifiers 2 and 1, supplied in that order, are returned in input order
`[2, 1]` — not in ascending identifier order. -/
theorem C2_counterexample :
    ((find_matches 0 patientC [trialA2, trialB1] (fun _ => none)
        (fun _ => Except.error "down".toList) 40 10).map (fun m => m.trial_id) = [2, 1]) ∧
    ((find_matches 0 patientC [trialA2, trialB1] (fun _ => none)
        (fun _ => Except.error "down".toList) 40 10).map
        (fun m => m.confidence_score) = [185/2, 185/2]) := by
  have hc2 : (evaluate_trial_core 0 patientC trialA2
      (Except.error "down".toList)).confidence_score = 185/2 := final_C2
  have hc1 : (evaluate_trial_core 0 patientC trialB1
      (Except.error "down".toList)).confidence_score = 185/2 := final_C1
  have hcoll : collect_matches
      ([trialA2, trialB1].map (fun t =>
        evaluate_trial ((fun _ => none) t) 0 patientC t
          ((fun _ => Except.error "down".toList) t))) 40 =
      [evaluate_trial_core 0 patientC trialA2 (Except.error "down".toList),
       evaluate_trial_core 0 patientC trialB1 (Except.error "down".toList)] := by
    unfold collect_matches evaluate_trial
    simp only [List.map_cons, List.map_nil, List.filterMap_cons, List.filterMap_nil]
    rw [if_pos (by rw [hc2]; norm_num), if_pos (by rw [hc1]; norm_num)]
  have hle : (evaluate_trial_core 0 patientC trialB1
      (Except.error "down".toList)).confidence_score ≤
      (evaluate_trial_core 0 patientC trialA2
        (Except.error "down".toList)).confidence_score := by
    rw [hc1, hc2]
  have hsort : sort_desc
      [evaluate_trial_core 0 patientC trialA2 (Except.error "down".toList),
       evaluate_trial_core 0 patientC trialB1 (Except.error "down".toList)] =
      [evaluate_trial_core 0 patientC trialA2 (Except.error "down".toList),
       evaluate_trial_core 0 patientC trialB1 (Except.error "down".toList)] := by
    unfold sort_desc
    rw [List.foldr_cons, List.foldr_cons, List.foldr_nil]
    have hins1 : insert_desc (evaluate_trial_core 0 patientC trialB1
        (Except.error "down".toList)) [] =
        [evaluate_trial_core 0 patientC trialB1 (Except.error "down".toList)] := rfl
    rw [hins1]
    simp only [insert_desc]
    rw [if_pos hle]
  unfold find_matches
  dsimp only
  rw [hcoll, hsort]
  constructor
  · rfl
  · show [(evaluate_trial_core 0 patientC trialA2
        (Except.error "down".toList)).confidence_score,
      (evaluate_trial_core 0 patientC trialB1
        (Except.error "down".toList)).confidence_score] = [185/2, 185/2]
    rw [hc2, hc1]

end ClaimsD

section ClaimsE

open MeTTaReasoner

/-- Unpacking a conjunction of synonym-set membership tests. -/
theorem containsBoth {l : List Str} {a b : Str}
    (h : (l.contains a && l.contains b) = true) : a ∈ l ∧ b ∈ l := by
  simp only [Bool.and_eq_true] at h
  exact ⟨List.elem_iff.1 h.1, List.elem_iff.1 h.2⟩

/-- Packing a conjunction of synonym-set membership tests. -/
theorem containsBothI {l : List Str} {a b : Str}
    (h : a ∈ l ∧ b ∈ l) : (l.contains a && l.contains b) = true := by
  simp only [Bool.and_eq_true]
  exact ⟨List.elem_iff.2 h.1, List.elem_iff.2 h.2⟩

set_option maxHeartbeats 1600000 in
/-- C4 (amended): `biomarkerMatches` returns true exactly when the two
strings are equal, or both lie in the positive synonym set, or both lie in
the negative synonym set, or the required expression CONTAINS `>=`
(checked first; not only as a prefix) and both numeric parses succeed with
observed ≥ threshold, or it does not contain `>=` but contains `<=` with
observed ≤ threshold; the numeric portion of the observed value is parsed
with all `%` characters removed, the threshold from the required expression
with the comparator and `%` characters removed, and any parse failure
(including a gate triggered only by a bare `>` or `<`) yields false. -/
theorem C4_biomarker_matches_characterization (pv rv : Str) :
    biomarker_matches pv rv = true ↔
      pv = rv ∨
      (pv ∈ positive_terms ∧ rv ∈ positive_terms) ∨
      (pv ∈ negative_terms ∧ rv ∈ negative_terms) ∨
      (containsSub rv ">=".toList = true ∧
        ∃ pn th : Dec, pyFloat? (pyStrip (pyReplace pv "%".toList [])) = some pn ∧
          pyFloat? (pyStrip (pyReplace (pyReplace rv ">=".toList []) "%".toList [])) =
            some th ∧ th.toRat ≤ pn.toRat) ∨
      (containsSub rv ">=".toList = false ∧ containsSub rv "<=".toList = true ∧
        ∃ pn th : Dec, pyFloat? (pyStrip (pyReplace pv "%".toList [])) = some pn ∧
          pyFloat? (pyStrip (pyReplace (pyReplace rv "<=".toList []) "%".toList [])) =
            some th ∧ pn.toRat ≤ th.toRat) := by
  unfold biomarker_matches
  by_cases h1 : pv = rv
  · rw [if_pos h1]
    exact iff_of_true rfl (Or.inl h1)
  rw [if_neg h1]
  by_cases h2 : (positive_terms.contains pv && positive_terms.contains rv) = true
  · rw [if_pos h2]
    exact iff_of_true rfl (Or.inr (Or.inl (containsBoth h2)))
  rw [if_neg h2]
  by_cases h3 : (negative_terms.contains pv && negative_terms.contains rv) = true
  · rw [if_pos h3]
    exact iff_of_true rfl (Or.inr (Or.inr (Or.inl (containsBoth h3))))
  rw [if_neg h3]
  by_cases h4 : (containsSub rv ">=".toList || containsSub rv "<=".toList ||
      containsSub rv ">".toList || containsSub rv "<".toList) = true
  · rw [if_pos h4]
    rcases hp : pyFloat? (pyStrip (pyReplace pv "%".toList [])) with _ | pn
    · constructor
      · intro h
        exact Bool.noConfusion h
      · rintro (h | hpos | hneg | ⟨hg, pn, th, hpn, hth, hcmp⟩ |
          ⟨hg1, hg2, pn, th, hpn, hth, hcmp⟩)
        · exact absurd h h1
        · exact absurd (containsBothI hpos) h2
        · exact absurd (containsBothI hneg) h3
        · exact Option.noConfusion hpn
        · exact Option.noConfusion hpn
    · show (if containsSub rv ">=".toList then _ else _) = true ↔ _
      by_cases hge : containsSub rv ">=".toList = true
      · rw [if_pos hge]
        rcases ht : pyFloat? (pyStrip (pyReplace (pyReplace rv ">=".toList [])
            "%".toList [])) with _ | th
        · constructor
          · intro h
            exact Bool.noConfusion h
          · rintro (h | hpos | hneg | ⟨hg, pn', th', hpn', hth', hcmp⟩ |
              ⟨hg1, hg2, pn', th', hpn', hth', hcmp⟩)
            · exact absurd h h1
            · exact absurd (containsBothI hpos) h2
            · exact absurd (containsBothI hneg) h3
            · exact Option.noConfusion hth'
            · rw [hge] at hg1
              exact Bool.noConfusion hg1
        · constructor
          · intro h
            exact Or.inr (Or.inr (Or.inr (Or.inl
              ⟨hge, pn, th, rfl, rfl, (Dec.ble_iff th pn).1 h⟩)))
          · rintro (h | hpos | hneg | ⟨hg, pn', th', hpn', hth', hcmp⟩ |
              ⟨hg1, hg2, pn', th', hpn', hth', hcmp⟩)
            · exact absurd h h1
            · exact absurd (containsBothI hpos) h2
            · exact absurd (containsBothI hneg) h3
            · injection hpn' with e1
              injection hth' with e2
              subst e1
              subst e2
              exact (Dec.ble_iff th pn).2 hcmp
            · rw [hge] at hg1
              exact Bool.noConfusion hg1
      · rw [if_neg hge]
        have hgef : containsSub rv ">=".toList = false := by
          simp only [Bool.not_eq_true] at hge
          exact hge
        by_cases hle : containsSub rv "<=".toList = true
        · rw [if_pos hle]
          rcases ht : pyFloat? (pyStrip (pyReplace (pyReplace rv "<=".toList [])
              "%".toList [])) with _ | th
          · constructor
            · intro h
              exact Bool.noConfusion h
            · rintro (h | hpos | hneg | ⟨hg, pn', th', hpn', hth', hcmp⟩ |
                ⟨hg1, hg2, pn', th', hpn', hth', hcmp⟩)
              · exact absurd h h1
              · exact absurd (containsBothI hpos) h2
              · exact absurd (containsBothI hneg) h3
              · exact absurd hg hge
              · exact Option.noConfusion hth'
          · constructor
            · intro h
              exact Or.inr (Or.inr (Or.inr (Or.inr
                ⟨hgef, hle, pn, th, rfl, rfl, (Dec.ble_iff pn th).1 h⟩)))
            · rintro (h | hpos | hneg | ⟨hg, pn', th', hpn', hth', hcmp⟩ |
                ⟨hg1, hg2, pn', th', hpn', hth', hcmp⟩)
              · exact absurd h h1
              · exact absurd (containsBothI hpos) h2
              · exact absurd (containsBothI hneg) h3
              · exact absurd hg hge
              · injection hpn' with e1
                injection hth' with e2
                subst e1
                subst e2
                exact (Dec.ble_iff pn th).2 hcmp
        · rw [if_neg hle]
          constructor
          · intro h
            exact Bool.noConfusion h
          · rintro (h | hpos | hneg | ⟨hg, pn', th', hpn', hth', hcmp⟩ |
              ⟨hg1, hg2, pn', th', hpn', hth', hcmp⟩)
            · exact absurd h h1
            · exact absurd (containsBothI hpos) h2
            · exact absurd (containsBothI hneg) h3
            · exact absurd hg hge
            · exact absurd hg2 hle
  · rw [if_neg h4]
    constructor
    · intro h
      exact Bool.noConfusion h
    · rintro (h | hpos | hneg | ⟨hg, pn', th', hpn', hth', hcmp⟩ |
        ⟨hg1, hg2, pn', th', hpn', hth', hcmp⟩)
      · exact absurd h h1
      · exact absurd (containsBothI hpos) h2
      · exact absurd (containsBothI hneg) h3
      · exact absurd (by rw [hg]; rfl : (containsSub rv ">=".toList ||
          containsSub rv "<=".toList || containsSub rv ">".toList ||
          containsSub rv "<".toList) = true) h4
      · exact absurd (by rw [hg2]; simp : (containsSub rv ">=".toList ||
          containsSub rv "<=".toList || containsSub rv ">".toList ||
          containsSub rv "<".toList) = true) h4

/-- Counterexample to C4 as stated: `">="` occurring other than as a prefix
still triggers the numeric comparison — `biomarker_matches "60" "50>="` is
true although the required expression does not start with `">="` or `"<="`
and no equality or synonym case applies. -/
theorem C4_counterexample :
    biomarker_matches "60".toList "50>=".toList = true ∧
    "60".toList ≠ "50>=".toList ∧
    "60".toList ∉ positive_terms ∧ "60".toList ∉ negative_terms ∧
    (">=".toList).isPrefixOf "50>=".toList = false ∧
    ("<=".toList).isPrefixOf "50>=".toList = false :=
  ⟨by decide, by decide, by decide, by decide, by decide, by decide⟩

end ClaimsE
